import Mathlib

/-!
Verification of the `parca-scraper` debuginfo upload coordinator
(`src/debuginfo_store/mod.rs`), shallowly embedded in Lean 4.

Conventions of the embedding:
* Timestamps and durations are whole seconds, modelled as `Int`
  (`chrono::Duration::minutes 2` is `120`); all concrete timestamps used
  in witnesses lie in chrono's valid range, so the
  `timestamp_opt … .earliest().unwrap_or(now)` conversion is the identity.
* Byte strings (upload chunks) are `List Nat`; only their contents and
  length matter to the code.
* Protobuf enum fields that the Rust code reads through infallible prost
  getters (`request.r#type()`, `request.build_id_type()`) are modelled
  directly as the decoded enums; the enum carried inside an `Upload`
  stream frame is kept as a raw `Int` because the code decodes it with a
  fallible `try_from`.
* gRPC `Status` values are a code plus a message.  Message texts follow
  the source but formatting interpolation is elided; no claim depends on
  message text, only on the status code.
* Nondeterministic effects become explicit parameters: `Utc::now()` is a
  `now : Int` argument, the freshly minted `ulid::Ulid::new().to_string()`
  of `initiate_upload` is a `new_upload_id : String` argument, and the
  upstream debuginfod client is a function field `debuginfod_exists`.
* The three submodules `metadata.rs`, `debuginfod.rs` and `fetcher.rs`
  are not part of the sources; the metadata-store transitions and the
  debuginfod client capability are modelled from the specification text
  (each such definition is marked `Modelled from the spec:`).
-/

namespace ParcaScraper

/-- `parca.debuginfo.v1alpha1.Debuginfo.Source` (proto enum decoded by
`Source::try_from` in `handle_existing_debuginfo`). -/
inductive Source where
  | unknownUnspecified
  | upload
  | debuginfod
deriving DecidableEq, Repr

/-- `parca.debuginfo.v1alpha1.DebuginfoUpload.State` (proto enum decoded by
`State::try_from` in `handle_upload_source`). -/
inductive UploadState where
  | unknownUnspecified
  | uploading
  | uploaded
deriving DecidableEq, Repr

/-- `parca.debuginfo.v1alpha1.BuildIdType`, read through the infallible
prost getter `request.build_id_type()`. -/
inductive BuildIdType where
  | unknownUnspecified
  | gnu
  | hash
deriving DecidableEq, Repr

/-- `parca.debuginfo.v1alpha1.DebuginfoType`, read through the infallible
prost getter `request.r#type()`. -/
inductive DebuginfoType where
  | unknownUnspecified
  | executable
  | sources
deriving DecidableEq, Repr

/-- Decoding of a raw protobuf integer into a `DebuginfoType`, as
`DebuginfoType::try_from` does inside `UploadRequestInfo::try_from`. -/
def DebuginfoType.tryFromInt (n : Int) : Option DebuginfoType :=
  if n = 0 then some .unknownUnspecified
  else if n = 1 then some .executable
  else if n = 2 then some .sources
  else none

/-- gRPC status codes actually produced by the coordinator. -/
inductive StatusCode where
  | invalidArgument
  | failedPrecondition
  | alreadyExists
  | internalError
deriving DecidableEq, Repr

/-- A gRPC `tonic::Status`: a code together with a message. -/
structure Status where
  code : StatusCode
  message : String
deriving DecidableEq, Repr

def Status.invalid_argument (m : String) : Status := ⟨.invalidArgument, m⟩

def Status.failed_precondition (m : String) : Status := ⟨.failedPrecondition, m⟩

def Status.already_exists (m : String) : Status := ⟨.alreadyExists, m⟩

def Status.internal (m : String) : Status := ⟨.internalError, m⟩

/-- `DebuginfoQuality` sub-record: the single observable flag. -/
structure DebuginfoQuality where
  not_valid_elf : Bool
deriving DecidableEq, Repr

/-- `DebuginfoUpload` sub-record of a metadata record. -/
structure DebuginfoUpload where
  id : String
  hash : String
  state : UploadState
  started_at : Option Int
  finished_at : Option Int
deriving DecidableEq, Repr

/-- A `Debuginfo` metadata record. -/
structure Debuginfo where
  build_id : String
  source : Source
  upload : Option DebuginfoUpload
  quality : Option DebuginfoQuality
deriving DecidableEq, Repr

/-- Key of the metadata map: the pair (Build ID, debuginfo kind). -/
abbrev MetadataKey := String × DebuginfoType

/-- Modelled from the spec: `metadata.rs` is not among the sources.  §4.3
describes the `MetadataStore` as an in-memory mapping from (Build ID,
kind) to `Debuginfo` record; it is modelled as an association list with
at most one entry per key. -/
def MetadataStore := List (MetadataKey × Debuginfo)
deriving DecidableEq, Repr

/-- Modelled from the spec: `Fetch(buildID, kind) → record?`, a read-only
snapshot of the record stored under the key. -/
def MetadataStore.fetch (m : MetadataStore) (build_id : String)
    (ty : DebuginfoType) : Option Debuginfo :=
  (m.find? (fun kv => kv.1 = (build_id, ty))).map (·.2)

/-- Store a record under a key, replacing any previous record there. -/
def MetadataStore.set (m : MetadataStore) (k : MetadataKey) (v : Debuginfo) :
    MetadataStore :=
  (k, v) :: m.filter (fun kv => kv.1 ≠ k)

/-- Modelled from the spec: `MarkAsUploading(buildID, uploadID, hash, kind,
now)` creates or overwrites the record with `source = Upload`,
`upload = {id, hash, Uploading, now}`; it fails with `AlreadyExists` if a
record in state `Uploaded` with a matching `hash` already exists. -/
def MetadataStore.mark_as_uploading (m : MetadataStore) (build_id upload_id h : String)
    (ty : DebuginfoType) (now : Int) : Except String MetadataStore :=
  let dup : Bool := match m.fetch build_id ty with
    | some info =>
      match info.upload with
      | some u => u.state = UploadState.uploaded && u.hash = h
      | none => false
    | none => false
  if dup then Except.error "AlreadyExists"
  else Except.ok (m.set (build_id, ty)
    { build_id := build_id
      source := .upload
      upload := some
        { id := upload_id
          hash := h
          state := .uploading
          started_at := some now
          finished_at := none }
      quality := none })

/-- Modelled from the spec: `MarkAsUploaded(buildID, uploadID, kind, now)`
requires an existing record whose `upload.id` equals `uploadID`;
it transitions `state → Uploaded` and sets `finished_at = now`, and
otherwise fails with `NotFound`. -/
def MetadataStore.mark_as_uploaded (m : MetadataStore) (build_id upload_id : String)
    (ty : DebuginfoType) (now : Int) : Except String MetadataStore :=
  match m.fetch build_id ty with
  | some info =>
    match info.upload with
    | some u =>
      if u.id = upload_id then
        Except.ok (m.set (build_id, ty)
          { info with upload := some { u with state := .uploaded, finished_at := some now } })
      else Except.error "NotFound"
    | none => Except.error "NotFound"
  | none => Except.error "NotFound"

/-- Modelled from the spec: `MarkAsDebuginfodSource(sourceURL, buildID,
kind)` sets `source = Debuginfod` and clears `upload`; idempotent.  The
spec does not say where the source URL is stored on the record, so it is
not retained. -/
def MetadataStore.mark_as_debuginfod_source (m : MetadataStore) (_source_url : String)
    (build_id : String) (ty : DebuginfoType) : MetadataStore :=
  match m.fetch build_id ty with
  | some info => m.set (build_id, ty) { info with source := .debuginfod, upload := none }
  | none => m.set (build_id, ty)
      { build_id := build_id, source := .debuginfod, upload := none, quality := none }

/-! ### Reason strings (constants at the top of `mod.rs`) -/

def REASON_DEBUGINFO_IN_DEBUGINFOD : String :=
  "Debuginfo exists in debuginfod, therefore no upload is necessary."

def REASON_FIRST_TIME_SEEN : String :=
  "First time we see this Build ID, and it does not exist in debuginfod, therefore please upload!"

def REASON_UPLOAD_STALE : String :=
  "A previous upload was started but not finished and is now stale, so it can be retried."

def REASON_UPLOAD_IN_PROGRESS : String :=
  "A previous upload is still in-progress and not stale yet (only stale uploads can be retried)."

def REASON_DEBUGINFO_ALREADY_EXISTS : String :=
  "Debuginfo already exists and is not marked as invalid, therefore no new upload is needed."

def REASON_DEBUGINFO_ALREADY_EXISTS_BUT_FORCED : String :=
  "Debuginfo already exists and is not marked as invalid, therefore wouldn\x27t have accepted a new upload, but accepting it because it\x27s requested to be forced."

def REASON_DEBUGINFO_INVALID : String :=
  "Debuginfo already exists but is marked as invalid, therefore a new upload is needed. Hash the debuginfo and initiate the upload."

def REASON_DEBUGINFO_EQUAL : String :=
  "Debuginfo already exists and is marked as invalid, but the proposed hash is the same as the one already available, therefore the upload is not accepted as it would result in the same invalid debuginfos."

def REASON_DEBUGINFO_NOT_EQUAL : String :=
  "Debuginfo already exists but is marked as invalid, therefore a new upload will be accepted."

def REASON_DEBUGINFOD_SOURCE : String :=
  "Debuginfo is available from debuginfod already and not marked as invalid, therefore no new upload is needed."

def REASON_DEBUGINFOD_INVALID : String :=
  "Debuginfo is available from debuginfod already but is marked as invalid, therefore a new upload is needed."

/-! ### Request and response messages -/

structure ShouldInitiateUploadRequest where
  build_id : String
  hash : String
  force : Bool
  ty : DebuginfoType
  build_id_type : BuildIdType
deriving DecidableEq, Repr

structure ShouldInitiateUploadResponse where
  should_initiate_upload : Bool
  reason : String
deriving DecidableEq, Repr

structure InitiateUploadRequest where
  build_id : String
  hash : String
  size : Int
  force : Bool
  ty : DebuginfoType
  build_id_type : BuildIdType
deriving DecidableEq, Repr

inductive UploadStrategy where
  | unknownUnspecified
  | grpc
  | signedUrl
deriving DecidableEq, Repr

structure UploadInstructions where
  upload_id : String
  build_id : String
  upload_strategy : UploadStrategy
  signed_url : String
  ty : DebuginfoType
deriving DecidableEq, Repr

structure InitiateUploadResponse where
  upload_instructions : Option UploadInstructions
deriving DecidableEq, Repr

/-- The payload union of one `Upload` stream frame
(`upload_request::Data`). -/
inductive UploadRequestData where
  | info (build_id : String) (upload_id : String) (ty : Int)
  | chunkData (chunk : List Nat)
deriving DecidableEq, Repr

/-- One `UploadRequest` frame: its optional `data` field. -/
structure UploadFrame where
  data : Option UploadRequestData
deriving DecidableEq, Repr

structure UploadResponse where
  build_id : String
  size : Nat
deriving DecidableEq, Repr

structure MarkUploadFinishedRequest where
  build_id : String
  upload_id : String
  ty : DebuginfoType
deriving DecidableEq, Repr

/-! ### The coordinator state -/

/-- The `DebuginfoStore` service state.  `debuginfod_exists` is —
modelled from the spec, `debuginfod.rs` not being among the sources —
the upstream client capability `Exists(buildID) → source URL or empty`
(§4.1).  Durations are in seconds. -/
structure DebuginfoStore where
  metadata : MetadataStore
  debuginfod_exists : String → String
  max_upload_duration : Int
  max_upload_size : Int

/-- Rust `str::eq_ignore_ascii_case` on a character. -/
def asciiLower (c : Char) : Char :=
  if 'A' ≤ c ∧ c ≤ 'Z' then Char.ofNat (c.toNat + 32) else c

/-- Rust `str::eq_ignore_ascii_case`. -/
def eqIgnoreAsciiCase (a b : String) : Bool :=
  a.data.map asciiLower = b.data.map asciiLower

/-! ### The decision procedure (`impl DebuginfoStore` helpers) -/

/-- `validate_buildid`: rejects Build IDs of length at most two. -/
def validate_buildid (id : String) : Except Status Unit :=
  if id.length ≤ 2 then Except.error (Status.invalid_argument "unexpectedly short input")
  else Except.ok ()

/-- `is_upload_stale`: an upload with a `started_at` is stale when
`started_at + (max_upload_duration + 2 minutes) < now`; an upload with
no `started_at` is never stale. -/
def DebuginfoStore.is_upload_stale (s : DebuginfoStore) (now : Int)
    (upload : DebuginfoUpload) : Bool :=
  match upload.started_at with
  | some ts => ts + (s.max_upload_duration + 120) < now
  | none => false

/-- `is_valid_elf`: `quality.map_or(false, |q| !q.not_valid_elf)`. -/
def DebuginfoStore.is_valid_elf (_s : DebuginfoStore) (debuginfo : Debuginfo) : Bool :=
  match debuginfo.quality with
  | some q => !q.not_valid_elf
  | none => false

/-- `handle_uploading_state`. -/
def DebuginfoStore.handle_uploading_state (s : DebuginfoStore) (now : Int)
    (upload : DebuginfoUpload) : Except Status ShouldInitiateUploadResponse :=
  if s.is_upload_stale now upload then
    Except.ok { should_initiate_upload := true, reason := REASON_UPLOAD_STALE }
  else
    Except.ok { should_initiate_upload := false, reason := REASON_UPLOAD_IN_PROGRESS }

/-- `handle_invalid_elf`. -/
def DebuginfoStore.handle_invalid_elf (_s : DebuginfoStore)
    (request : ShouldInitiateUploadRequest) : Except Status ShouldInitiateUploadResponse :=
  Except.ok
    { should_initiate_upload := request.force
      reason :=
        if request.force then REASON_DEBUGINFO_ALREADY_EXISTS_BUT_FORCED
        else REASON_DEBUGINFO_ALREADY_EXISTS }

/-- `compare_hash`. -/
def DebuginfoStore.compare_hash (_s : DebuginfoStore)
    (request : ShouldInitiateUploadRequest) (debuginfo : Debuginfo) :
    Except Status ShouldInitiateUploadResponse :=
  match debuginfo.upload with
  | some upload =>
    if upload.hash = request.hash then
      Except.ok { should_initiate_upload := false, reason := REASON_DEBUGINFO_EQUAL }
    else
      Except.ok { should_initiate_upload := true, reason := REASON_DEBUGINFO_NOT_EQUAL }
  | none => Except.ok { should_initiate_upload := true, reason := REASON_DEBUGINFO_INVALID }

/-- `handle_uploaded_state`. -/
def DebuginfoStore.handle_uploaded_state (s : DebuginfoStore)
    (request : ShouldInitiateUploadRequest) (debuginfo : Debuginfo) :
    Except Status ShouldInitiateUploadResponse :=
  if !s.is_valid_elf debuginfo then
    s.handle_invalid_elf request
  else if request.hash = "" then
    Except.ok { should_initiate_upload := true, reason := REASON_DEBUGINFO_INVALID }
  else
    s.compare_hash request debuginfo

/-- `handle_upload_source`. -/
def DebuginfoStore.handle_upload_source (s : DebuginfoStore) (now : Int)
    (request : ShouldInitiateUploadRequest) (debuginfo : Debuginfo) :
    Except Status ShouldInitiateUploadResponse :=
  match debuginfo.upload with
  | none => Except.error (Status.internal "Inconsistent metadata: missing upload info")
  | some upload =>
    match upload.state with
    | .uploading => s.handle_uploading_state now upload
    | .uploaded => s.handle_uploaded_state request debuginfo
    | _ => Except.error (Status.internal "Inconsistent metadata: unknown upload state")

/-- `handle_debuginfod_source`. -/
def DebuginfoStore.handle_debuginfod_source (s : DebuginfoStore)
    (debuginfo : Debuginfo) : Except Status ShouldInitiateUploadResponse :=
  Except.ok
    { should_initiate_upload := true
      reason :=
        if !s.is_valid_elf debuginfo then REASON_DEBUGINFOD_SOURCE
        else REASON_DEBUGINFOD_INVALID }

/-- `handle_existing_debuginfo`. -/
def DebuginfoStore.handle_existing_debuginfo (s : DebuginfoStore) (now : Int)
    (request : ShouldInitiateUploadRequest) (debuginfo : Debuginfo) :
    Except Status ShouldInitiateUploadResponse :=
  match debuginfo.source with
  | .debuginfod => s.handle_debuginfod_source debuginfo
  | .upload => s.handle_upload_source now request debuginfo
  | _ => Except.error (Status.internal "Inconsistent metadata: unknown source")

/-- `handle_new_build_id`: never fails; may record a debuginfod source in
the metadata store, so it returns the (possibly updated) store. -/
def DebuginfoStore.handle_new_build_id (s : DebuginfoStore)
    (request : ShouldInitiateUploadRequest) :
    ShouldInitiateUploadResponse × MetadataStore :=
  if !(request.build_id_type = BuildIdType.gnu ∨
       request.build_id_type = BuildIdType.unknownUnspecified) then
    ({ should_initiate_upload := true, reason := REASON_FIRST_TIME_SEEN }, s.metadata)
  else
    let exists_url := s.debuginfod_exists request.build_id
    if exists_url ≠ "" then
      ({ should_initiate_upload := false, reason := REASON_DEBUGINFO_IN_DEBUGINFOD },
        s.metadata.mark_as_debuginfod_source exists_url request.build_id request.ty)
    else
      ({ should_initiate_upload := true, reason := REASON_FIRST_TIME_SEEN }, s.metadata)

/-- `should_initiate_upload`: the decision procedure.  Returns the
response together with the metadata store after the call (the call can
mutate the store through `mark_as_debuginfod_source`). -/
def DebuginfoStore.should_initiate_upload (s : DebuginfoStore) (now : Int)
    (request : ShouldInitiateUploadRequest) :
    Except Status (ShouldInitiateUploadResponse × MetadataStore) :=
  match validate_buildid request.build_id with
  | .error e => Except.error e
  | .ok _ =>
    match s.metadata.fetch request.build_id request.ty with
    | some info =>
      match s.handle_existing_debuginfo now request info with
      | .error e => Except.error e
      | .ok resp => Except.ok (resp, s.metadata)
    | none => Except.ok (s.handle_new_build_id request)

/-- `initiate_upload`.  `new_upload_id` stands for the freshly minted
`ulid::Ulid::new().to_string()`. -/
def DebuginfoStore.initiate_upload (s : DebuginfoStore) (now : Int)
    (new_upload_id : String) (request : InitiateUploadRequest) :
    Except Status (InitiateUploadResponse × MetadataStore) :=
  if request.hash = "" then Except.error (Status.invalid_argument "Hash is empty")
  else if request.size = 0 then Except.error (Status.invalid_argument "Size is zero")
  else
    match s.should_initiate_upload now
        { build_id := request.build_id
          hash := request.hash
          force := request.force
          ty := request.ty
          build_id_type := request.build_id_type } with
    | .error e => Except.error e
    | .ok (should_initiate, metadata) =>
      if !should_initiate.should_initiate_upload then
        if eqIgnoreAsciiCase should_initiate.reason REASON_DEBUGINFO_EQUAL then
          Except.error (Status.already_exists "Debuginfo already exists")
        else
          Except.error (Status.failed_precondition
            "upload should not have been attempted to be initiated, a previous check should have failed")
      else if request.size > s.max_upload_size then
        Except.error (Status.invalid_argument "Upload size exceeds the maximum allowed size")
      else
        match metadata.mark_as_uploading request.build_id new_upload_id request.hash
            request.ty now with
        | .error _ => Except.error (Status.internal "Failed to mark metadata as uploading.")
        | .ok metadata =>
          Except.ok
            ({ upload_instructions := some
                { upload_id := new_upload_id
                  build_id := request.build_id
                  upload_strategy := .grpc
                  signed_url := ""
                  ty := request.ty } }, metadata)

/-- The chunk-accumulation loop of `upload`: every further frame must be
`ChunkData` and the chunks are concatenated in arrival order. -/
def collectChunks : List UploadFrame → Except Status (List Nat)
  | [] => Except.ok []
  | f :: rest =>
    match f.data with
    | some (.chunkData c) => (collectChunks rest).map (c ++ ·)
    | _ => Except.error (Status.invalid_argument "provided no value or invalid data")

/-- `upload`: the streaming handler, on a stream given as the list of its
frames.  The first component of the result collects the writes performed
on the object bucket as (key, bytes) pairs. -/
def DebuginfoStore.upload (s : DebuginfoStore) (frames : List UploadFrame) :
    List (String × List Nat) × Except Status UploadResponse :=
  match frames with
  | [] => ([], Except.error (Status.invalid_argument "Empty request"))
  | first :: rest =>
    match first.data with
    | none => ([], Except.error (Status.invalid_argument "Missing data"))
    | some (.chunkData _) => ([], Except.error (Status.invalid_argument "Invalid data type."))
    | some (.info build_id upload_id ty_raw) =>
      match DebuginfoType.tryFromInt ty_raw with
      | none => ([], Except.error (Status.invalid_argument "Invalid debuginfo type."))
      | some ty =>
        match validate_buildid build_id with
        | .error e => ([], Except.error e)
        | .ok _ =>
          match s.metadata.fetch build_id ty with
          | none => ([], Except.error (Status.failed_precondition
              "metadata not found, this indicates that the upload was not previously initiated"))
          | some dbginfo =>
            match dbginfo.upload with
            | none => ([], Except.error (Status.invalid_argument
                "metadata not found, this indicates that the upload was not previously initiated"))
            | some upload_rec =>
              if upload_rec.id ≠ upload_id then
                ([], Except.error (Status.failed_precondition
                  "upload metadata not found, this indicates that the upload was not previously initiated"))
              else
                match collectChunks rest with
                | .error e => ([], Except.error e)
                | .ok chunks =>
                  ([(upload_id, chunks)],
                    Except.ok { build_id := build_id, size := chunks.length })

/-- `mark_upload_finished`: validates the Build ID and calls
`mark_as_uploaded`, mapping any store error to an `Internal` status. -/
def DebuginfoStore.mark_upload_finished (s : DebuginfoStore) (now : Int)
    (request : MarkUploadFinishedRequest) : Except Status MetadataStore :=
  match validate_buildid request.build_id with
  | .error e => Except.error e
  | .ok _ =>
    match s.metadata.mark_as_uploaded request.build_id request.upload_id request.ty now with
    | .error _ => Except.error (Status.internal "Failed to mark metadata as uploaded.")
    | .ok ms => Except.ok ms

/-! ### Concrete fixtures used by witnesses and counterexamples.
Durations follow `main.rs`: `max_upload_duration` = 15 minutes = 900
seconds, `max_upload_size` = 10^9. -/

/-- An upstream debuginfod client that has nothing. -/
def emptyDebuginfod : String → String := fun _ => ""

def exampleStore (m : MetadataStore) (ex : String → String) : DebuginfoStore :=
  { metadata := m
    debuginfod_exists := ex
    max_upload_duration := 900
    max_upload_size := 1000000000 }

def exampleKey : MetadataKey := ("abc1", DebuginfoType.executable)

/-- A record in state `Uploaded` under Build ID `abc1`, upload id `u1`,
with the given stored hash and quality. -/
def exampleUploadedRecord (h : String) (q : Option DebuginfoQuality) : Debuginfo :=
  { build_id := "abc1"
    source := .upload
    upload := some
      { id := "u1", hash := h, state := .uploaded, started_at := some 0, finished_at := some 10 }
    quality := q }

/-- A record in state `Uploading` under Build ID `abc1`, upload id `u1`,
started at the given time. -/
def exampleUploadingRecord (ts : Option Int) : Debuginfo :=
  { build_id := "abc1"
    source := .upload
    upload := some
      { id := "u1", hash := "h1", state := .uploading, started_at := ts, finished_at := none }
    quality := none }

/-- A record obtained from debuginfod. -/
def exampleDebuginfodRecord (q : Option DebuginfoQuality) : Debuginfo :=
  { build_id := "abc1", source := .debuginfod, upload := none, quality := q }

def exampleRequest (h : String) (f : Bool) : ShouldInitiateUploadRequest :=
  { build_id := "abc1", hash := h, force := f, ty := .executable, build_id_type := .gnu }

def exampleInitiateRequest (h : String) (sz : Int) (f : Bool) : InitiateUploadRequest :=
  { build_id := "abc1", hash := h, size := sz, force := f, ty := .executable
    build_id_type := .gnu }

/-- The bytes carried by the `ChunkData` frames of a stream tail, in
arrival order. -/
def chunkBytes : List UploadFrame → List Nat
  | [] => []
  | f :: rest =>
    (match f.data with
      | some (.chunkData c) => c
      | _ => []) ++ chunkBytes rest

/-! ## Helper lemmas -/

theorem validate_buildid_ok {id : String} (h : 2 < id.length) :
    validate_buildid id = Except.ok () := by
  unfold validate_buildid
  rw [if_neg (by omega)]

/-- Fetching the key just stored returns the stored record. -/
theorem MetadataStore.fetch_set (m : MetadataStore) (k : MetadataKey) (v : Debuginfo) :
    (m.set k v).fetch k.1 k.2 = some v := by
  unfold MetadataStore.set MetadataStore.fetch
  simp [List.find?]

/-- `should_initiate_upload` on a record in state `Uploaded`: the full
case analysis of `handle_uploaded_state`. -/
theorem shouldInitiate_uploaded_eq (s : DebuginfoStore) (now : Int)
    (req : ShouldInitiateUploadRequest) (info : Debuginfo) (u : DebuginfoUpload)
    (hv : 2 < req.build_id.length)
    (hf : s.metadata.fetch req.build_id req.ty = some info)
    (hsrc : info.source = Source.upload)
    (hu : info.upload = some u)
    (hst : u.state = UploadState.uploaded) :
    s.should_initiate_upload now req =
      Except.ok
        ((if s.is_valid_elf info = false then
            (if req.force then
              ⟨true, REASON_DEBUGINFO_ALREADY_EXISTS_BUT_FORCED⟩
             else ⟨false, REASON_DEBUGINFO_ALREADY_EXISTS⟩)
          else if req.hash = "" then ⟨true, REASON_DEBUGINFO_INVALID⟩
          else if u.hash = req.hash then ⟨false, REASON_DEBUGINFO_EQUAL⟩
          else ⟨true, REASON_DEBUGINFO_NOT_EQUAL⟩ : ShouldInitiateUploadResponse),
          s.metadata) := by
  simp only [DebuginfoStore.should_initiate_upload, validate_buildid_ok hv, hf,
    DebuginfoStore.handle_existing_debuginfo, hsrc,
    DebuginfoStore.handle_upload_source, hu, hst,
    DebuginfoStore.handle_uploaded_state,
    DebuginfoStore.handle_invalid_elf, DebuginfoStore.compare_hash]
  by_cases hq : s.is_valid_elf info = false
  · by_cases hforce : req.force <;> simp [hq, hforce]
  · simp only [Bool.not_eq_false] at hq
    simp [hq]
    by_cases hh : req.hash = ""
    · simp [hh]
    · simp [hh]
      by_cases he : u.hash = req.hash
      · simp [he]
      · simp [he]

/-- `should_initiate_upload` on a record in state `Uploading`. -/
theorem shouldInitiate_uploading_eq (s : DebuginfoStore) (now : Int)
    (req : ShouldInitiateUploadRequest) (info : Debuginfo) (u : DebuginfoUpload)
    (hv : 2 < req.build_id.length)
    (hf : s.metadata.fetch req.build_id req.ty = some info)
    (hsrc : info.source = Source.upload)
    (hu : info.upload = some u)
    (hst : u.state = UploadState.uploading) :
    s.should_initiate_upload now req =
      Except.ok
        ((if s.is_upload_stale now u then
            ⟨true, REASON_UPLOAD_STALE⟩
          else ⟨false, REASON_UPLOAD_IN_PROGRESS⟩ : ShouldInitiateUploadResponse),
          s.metadata) := by
  simp only [DebuginfoStore.should_initiate_upload, validate_buildid_ok hv, hf,
    DebuginfoStore.handle_existing_debuginfo, hsrc,
    DebuginfoStore.handle_upload_source, hu, hst,
    DebuginfoStore.handle_uploading_state]
  by_cases hstale : s.is_upload_stale now u <;> simp [hstale]

/-- `should_initiate_upload` on a `Debuginfod`-sourced record. -/
theorem shouldInitiate_debuginfod_eq (s : DebuginfoStore) (now : Int)
    (req : ShouldInitiateUploadRequest) (info : Debuginfo)
    (hv : 2 < req.build_id.length)
    (hf : s.metadata.fetch req.build_id req.ty = some info)
    (hsrc : info.source = Source.debuginfod) :
    s.should_initiate_upload now req =
      Except.ok
        (⟨true,
          if s.is_valid_elf info = false then REASON_DEBUGINFOD_SOURCE
          else REASON_DEBUGINFOD_INVALID⟩,
          s.metadata) := by
  simp only [DebuginfoStore.should_initiate_upload, validate_buildid_ok hv, hf,
    DebuginfoStore.handle_existing_debuginfo, hsrc,
    DebuginfoStore.handle_debuginfod_source]
  by_cases hq : s.is_valid_elf info = false <;> simp [hq]

/-- `should_initiate_upload` on a miss of the metadata store defers to
`handle_new_build_id`. -/
theorem shouldInitiate_none_eq (s : DebuginfoStore) (now : Int)
    (req : ShouldInitiateUploadRequest)
    (hv : 2 < req.build_id.length)
    (hf : s.metadata.fetch req.build_id req.ty = none) :
    s.should_initiate_upload now req = Except.ok (s.handle_new_build_id req) := by
  simp only [DebuginfoStore.should_initiate_upload, validate_buildid_ok hv, hf]

/-- When every frame of `l` is a `ChunkData` frame, the accumulation
loop returns the concatenation of the chunks in arrival order. -/
theorem collectChunks_all (l : List UploadFrame)
    (h : ∀ f ∈ l, ∃ c, f.data = some (.chunkData c)) :
    collectChunks l = Except.ok (chunkBytes l) := by
  induction l with
  | nil => rfl
  | cons f rest ih =>
    obtain ⟨c, hc⟩ := h f (List.mem_cons_self f rest)
    have hrest := ih (fun g hg => h g (List.mem_cons_of_mem f hg))
    simp [collectChunks, chunkBytes, hc, hrest, Except.map]

/-- The accumulation loop rejects the first frame that is not a
`ChunkData` frame with `InvalidArgument`. -/
theorem collectChunks_bad (pre : List UploadFrame) (bad : UploadFrame)
    (post : List UploadFrame)
    (hpre : ∀ f ∈ pre, ∃ c, f.data = some (.chunkData c))
    (hbad : ∀ c, bad.data ≠ some (.chunkData c)) :
    collectChunks (pre ++ bad :: post) =
      Except.error (Status.invalid_argument "provided no value or invalid data") := by
  induction pre with
  | nil =>
    rw [List.nil_append]
    cases hd : bad.data with
    | none => simp [collectChunks, hd]
    | some d =>
      cases d with
      | info b u t => simp [collectChunks, hd]
      | chunkData c => exact absurd hd (hbad c)
  | cons f rest ih =>
    obtain ⟨c, hc⟩ := hpre f (List.mem_cons_self f rest)
    have htail := ih (fun g hg => hpre g (List.mem_cons_of_mem f hg))
    simp [collectChunks, hc, htail, Except.map]

/-! ## Claims -/

/-- C1: For every stored record with source = Upload and upload.state =
Uploaded, ShouldInitiate decides by this case analysis: if the record is
not valid ELF it returns (true, AlreadyExistsButForced) when
request.force is true and (false, AlreadyExists) when force is false;
otherwise, if the request hash is empty it returns (true,
DebuginfoInvalid), if the request hash equals the stored upload.hash it
returns (false, DebuginfoEqual), and if they differ it returns (true,
DebuginfoNotEqual). -/
theorem uploaded_state_decision (s : DebuginfoStore) (now : Int)
    (req : ShouldInitiateUploadRequest) (info : Debuginfo) (u : DebuginfoUpload)
    (hv : 2 < req.build_id.length)
    (hf : s.metadata.fetch req.build_id req.ty = some info)
    (hsrc : info.source = Source.upload)
    (hu : info.upload = some u)
    (hst : u.state = UploadState.uploaded) :
    s.should_initiate_upload now req =
      Except.ok
        ((if s.is_valid_elf info = false then
            (if req.force then
              ⟨true, REASON_DEBUGINFO_ALREADY_EXISTS_BUT_FORCED⟩
             else ⟨false, REASON_DEBUGINFO_ALREADY_EXISTS⟩)
          else if req.hash = "" then ⟨true, REASON_DEBUGINFO_INVALID⟩
          else if u.hash = req.hash then ⟨false, REASON_DEBUGINFO_EQUAL⟩
          else ⟨true, REASON_DEBUGINFO_NOT_EQUAL⟩ : ShouldInitiateUploadResponse),
          s.metadata) :=
  shouldInitiate_uploaded_eq s now req info u hv hf hsrc hu hst

/-- Witness for C1, the spec scenario S5: a valid-ELF `Uploaded` record
with stored hash `h1` and a request with the same hash yields
`(false, DebuginfoEqual)`. -/
theorem uploaded_state_decision_witness :
    (exampleStore [(exampleKey, exampleUploadedRecord "h1" (some ⟨false⟩))] emptyDebuginfod).should_initiate_upload 1000 (exampleRequest "h1" false) =
      Except.ok (⟨false, REASON_DEBUGINFO_EQUAL⟩,
        [(exampleKey, exampleUploadedRecord "h1" (some ⟨false⟩))]) :=
  uploaded_state_decision
    (exampleStore [(exampleKey, exampleUploadedRecord "h1" (some ⟨false⟩))] emptyDebuginfod)
    1000 (exampleRequest "h1" false) (exampleUploadedRecord "h1" (some ⟨false⟩))
    { id := "u1", hash := "h1", state := .uploaded, started_at := some 0, finished_at := some 10 }
    (by decide) rfl rfl rfl rfl

/-- C2 is violated by the code: at the spec scenario S6 input — an
`Uploaded` record with stored hash `h1` marked `not_valid_elf = true`,
and a request with differing non-empty hash `h2` and `force = false` —
`should_initiate_upload` returns `(false, AlreadyExists)` rather than
`(true, DebuginfoNotEqual)`, and the subsequent `initiate_upload` fails
with `FailedPrecondition` instead of succeeding. -/
theorem invalid_elf_new_hash_refused :
    (exampleStore [(exampleKey, exampleUploadedRecord "h1" (some ⟨true⟩))] emptyDebuginfod).should_initiate_upload 1000 (exampleRequest "h2" false) =
      Except.ok (⟨false, REASON_DEBUGINFO_ALREADY_EXISTS⟩,
        [(exampleKey, exampleUploadedRecord "h1" (some ⟨true⟩))])
    ∧ (exampleStore [(exampleKey, exampleUploadedRecord "h1" (some ⟨true⟩))] emptyDebuginfod).initiate_upload 1000 "u2" (exampleInitiateRequest "h2" 10 false) =
      Except.error (Status.failed_precondition
        "upload should not have been attempted to be initiated, a previous check should have failed") :=
  ⟨rfl, rfl⟩

/-- C3: For every stored record with source = Debuginfod, ShouldInitiate
returns should_initiate_upload = true, regardless of the record's
quality flag, the request hash, and the force flag. -/
theorem debuginfod_source_always_initiates (s : DebuginfoStore) (now : Int)
    (req : ShouldInitiateUploadRequest) (info : Debuginfo)
    (hv : 2 < req.build_id.length)
    (hf : s.metadata.fetch req.build_id req.ty = some info)
    (hsrc : info.source = Source.debuginfod) :
    ∃ r : String,
      s.should_initiate_upload now req = Except.ok (⟨true, r⟩, s.metadata) :=
  ⟨_, shouldInitiate_debuginfod_eq s now req info hv hf hsrc⟩

/-- Witness for C3: a debuginfod-sourced record, an arbitrary request. -/
theorem debuginfod_source_always_initiates_witness :
    ∃ r : String,
      (exampleStore [(exampleKey, exampleDebuginfodRecord (some ⟨false⟩))] emptyDebuginfod).should_initiate_upload 7 (exampleRequest "h9" true) =
        Except.ok (⟨true, r⟩, [(exampleKey, exampleDebuginfodRecord (some ⟨false⟩))]) :=
  debuginfod_source_always_initiates
    (exampleStore [(exampleKey, exampleDebuginfodRecord (some ⟨false⟩))] emptyDebuginfod)
    7 (exampleRequest "h9" true) (exampleDebuginfodRecord (some ⟨false⟩))
    (by decide) rfl rfl

/-- C5: An Uploading upload is stale exactly when started_at +
max_upload_duration + 2 minutes (120 s) is earlier than now, an upload
with no started_at is never stale, and for a record in state Uploading
ShouldInitiate returns (true, UploadStale) when the upload is stale and
(false, UploadInProgress) otherwise. -/
theorem staleness_and_uploading_decision (s : DebuginfoStore) (now : Int)
    (req : ShouldInitiateUploadRequest) (info : Debuginfo) (u : DebuginfoUpload)
    (hv : 2 < req.build_id.length)
    (hf : s.metadata.fetch req.build_id req.ty = some info)
    (hsrc : info.source = Source.upload)
    (hu : info.upload = some u)
    (hst : u.state = UploadState.uploading) :
    (s.is_upload_stale now u = true ↔
      ∃ t, u.started_at = some t ∧ t + s.max_upload_duration + 120 < now)
    ∧ (u.started_at = none → s.is_upload_stale now u = false)
    ∧ s.should_initiate_upload now req =
        Except.ok
          ((if s.is_upload_stale now u then ⟨true, REASON_UPLOAD_STALE⟩
            else ⟨false, REASON_UPLOAD_IN_PROGRESS⟩ : ShouldInitiateUploadResponse),
            s.metadata) := by
  refine ⟨?_, ?_, shouldInitiate_uploading_eq s now req info u hv hf hsrc hu hst⟩
  · cases hsa : u.started_at with
    | none => simp [DebuginfoStore.is_upload_stale, hsa]
    | some t =>
      simp only [DebuginfoStore.is_upload_stale, hsa, decide_eq_true_eq, Option.some.injEq]
      constructor
      · intro h
        exact ⟨t, rfl, by omega⟩
      · rintro ⟨t', ht', h⟩
        omega
  · intro hsa
    simp [DebuginfoStore.is_upload_stale, hsa]

/-- Witness for C5, the spec scenario S3: an `Uploading` record started
at time 0 is stale at `now = 2000 > 0 + 900 + 120`, so the decision is
`(true, UploadStale)`. -/
theorem staleness_and_uploading_decision_witness :
    (exampleStore [(exampleKey, exampleUploadingRecord (some 0))] emptyDebuginfod).should_initiate_upload 2000 (exampleRequest "h2" false) =
      Except.ok (⟨true, REASON_UPLOAD_STALE⟩,
        [(exampleKey, exampleUploadingRecord (some 0))]) :=
  (staleness_and_uploading_decision
    (exampleStore [(exampleKey, exampleUploadingRecord (some 0))] emptyDebuginfod)
    2000 (exampleRequest "h2" false) (exampleUploadingRecord (some 0))
    { id := "u1", hash := "h1", state := .uploading, started_at := some 0, finished_at := none }
    (by decide) rfl rfl rfl rfl).2.2

/-- C10: If an Uploaded record's optional quality sub-record is absent
entirely, ShouldInitiate treats the record exactly like one marked
not_valid_elf = true: it returns (false, AlreadyExists) unless force is
set (then (true, AlreadyExistsButForced)), and it never compares the
request hash against the stored hash (the response does not depend on
the request hash, and the modified record with `not_valid_elf = true`
yields the same response). -/
theorem missing_quality_like_invalid (s : DebuginfoStore) (now : Int)
    (req : ShouldInitiateUploadRequest) (info : Debuginfo) (u : DebuginfoUpload)
    (hv : 2 < req.build_id.length)
    (hf : s.metadata.fetch req.build_id req.ty = some info)
    (hsrc : info.source = Source.upload)
    (hu : info.upload = some u)
    (hst : u.state = UploadState.uploaded)
    (hq : info.quality = none) :
    s.should_initiate_upload now req =
      Except.ok
        ((if req.force then ⟨true, REASON_DEBUGINFO_ALREADY_EXISTS_BUT_FORCED⟩
          else ⟨false, REASON_DEBUGINFO_ALREADY_EXISTS⟩ : ShouldInitiateUploadResponse),
          s.metadata)
    ∧ (∀ h' : String,
        s.should_initiate_upload now { req with hash := h' } =
          Except.ok
            ((if req.force then ⟨true, REASON_DEBUGINFO_ALREADY_EXISTS_BUT_FORCED⟩
              else ⟨false, REASON_DEBUGINFO_ALREADY_EXISTS⟩ : ShouldInitiateUploadResponse),
              s.metadata))
    ∧ (∀ m' : MetadataStore,
        m'.fetch req.build_id req.ty = some { info with quality := some ⟨true⟩ } →
        ({ s with metadata := m' } : DebuginfoStore).should_initiate_upload now req =
          Except.ok
            ((if req.force then ⟨true, REASON_DEBUGINFO_ALREADY_EXISTS_BUT_FORCED⟩
              else ⟨false, REASON_DEBUGINFO_ALREADY_EXISTS⟩ : ShouldInitiateUploadResponse),
              m')) := by
  have hinv : s.is_valid_elf info = false := by
    simp [DebuginfoStore.is_valid_elf, hq]
  refine ⟨?_, ?_, ?_⟩
  · rw [shouldInitiate_uploaded_eq s now req info u hv hf hsrc hu hst]
    simp [hinv]
  · intro h'
    rw [shouldInitiate_uploaded_eq s now { req with hash := h' } info u hv hf hsrc hu hst]
    simp [hinv]
  · intro m' hm'
    have hinv' : ∀ s' : DebuginfoStore,
        s'.is_valid_elf { info with quality := some ⟨true⟩ } = false := by
      intro s'
      simp [DebuginfoStore.is_valid_elf]
    rw [shouldInitiate_uploaded_eq { s with metadata := m' } now req
      { info with quality := some ⟨true⟩ } u hv hm' hsrc hu hst]
    simp [hinv' { s with metadata := m' }]

/-- Witness for C10: an `Uploaded` record with no quality sub-record and
a request with a different hash is refused with `AlreadyExists`. -/
theorem missing_quality_like_invalid_witness :
    (exampleStore [(exampleKey, exampleUploadedRecord "h1" none)] emptyDebuginfod).should_initiate_upload 1000 (exampleRequest "h2" false) =
      Except.ok (⟨false, REASON_DEBUGINFO_ALREADY_EXISTS⟩,
        [(exampleKey, exampleUploadedRecord "h1" none)]) :=
  (missing_quality_like_invalid
    (exampleStore [(exampleKey, exampleUploadedRecord "h1" none)] emptyDebuginfod)
    1000 (exampleRequest "h2" false) (exampleUploadedRecord "h1" none)
    { id := "u1", hash := "h1", state := .uploaded, started_at := some 0, finished_at := some 10 }
    (by decide) rfl rfl rfl rfl rfl).1

/-- C4: When no record exists for (build ID, kind): if build_id_type is
neither Gnu nor UnknownUnspecified, ShouldInitiate returns (true,
FirstTimeSeen) without consulting the debuginfod client (the result is
the same for every client); otherwise it calls Exists(buildID) and, on a
non-empty source, records the build ID as Debuginfod-sourced via
MarkAsDebuginfodSource and returns (false, InDebuginfod), while on an
empty source it returns (true, FirstTimeSeen). -/
theorem new_build_id_decision (s : DebuginfoStore) (now : Int)
    (req : ShouldInitiateUploadRequest)
    (hv : 2 < req.build_id.length)
    (hf : s.metadata.fetch req.build_id req.ty = none) :
    (req.build_id_type ≠ BuildIdType.gnu ∧ req.build_id_type ≠ BuildIdType.unknownUnspecified →
      ∀ g : String → String,
        ({ s with debuginfod_exists := g } : DebuginfoStore).should_initiate_upload now req =
          Except.ok (⟨true, REASON_FIRST_TIME_SEEN⟩, s.metadata))
    ∧ ((req.build_id_type = BuildIdType.gnu ∨ req.build_id_type = BuildIdType.unknownUnspecified) →
        (s.debuginfod_exists req.build_id ≠ "" →
          s.should_initiate_upload now req =
            Except.ok (⟨false, REASON_DEBUGINFO_IN_DEBUGINFOD⟩,
              s.metadata.mark_as_debuginfod_source (s.debuginfod_exists req.build_id)
                req.build_id req.ty)
          ∧ ∃ r : Debuginfo,
              (s.metadata.mark_as_debuginfod_source (s.debuginfod_exists req.build_id)
                  req.build_id req.ty).fetch req.build_id req.ty = some r ∧
              r.source = Source.debuginfod)
        ∧ (s.debuginfod_exists req.build_id = "" →
            s.should_initiate_upload now req =
              Except.ok (⟨true, REASON_FIRST_TIME_SEEN⟩, s.metadata))) := by
  constructor
  · rintro ⟨h1, h2⟩ g
    rw [shouldInitiate_none_eq { s with debuginfod_exists := g } now req hv hf]
    simp [DebuginfoStore.handle_new_build_id, h1, h2]
  · intro hbt
    constructor
    · intro hex
      constructor
      · rw [shouldInitiate_none_eq s now req hv hf]
        rcases hbt with h | h <;> simp [DebuginfoStore.handle_new_build_id, h, hex]
      · unfold MetadataStore.mark_as_debuginfod_source
        rw [hf]
        exact ⟨_, MetadataStore.fetch_set s.metadata (req.build_id, req.ty) _, rfl⟩
    · intro hex
      rw [shouldInitiate_none_eq s now req hv hf]
      rcases hbt with h | h <;> simp [DebuginfoStore.handle_new_build_id, h, hex]

/-- Witness for C4, the spec scenario S2: an empty store, a Gnu build ID
present upstream, yields (false, InDebuginfod) and a Debuginfod-sourced
record in the store. -/
theorem new_build_id_decision_witness :
    (exampleStore [] (fun _ => "https://debuginfod.example")).should_initiate_upload 0
        (exampleRequest "h1" false) =
      Except.ok (⟨false, REASON_DEBUGINFO_IN_DEBUGINFOD⟩,
        (MetadataStore.mark_as_debuginfod_source [] "https://debuginfod.example"
          "abc1" DebuginfoType.executable))
    ∧ ∃ r : Debuginfo,
        (MetadataStore.mark_as_debuginfod_source [] "https://debuginfod.example"
            "abc1" DebuginfoType.executable).fetch "abc1" DebuginfoType.executable = some r ∧
        r.source = Source.debuginfod :=
  (new_build_id_decision (exampleStore [] (fun _ => "https://debuginfod.example")) 0
      (exampleRequest "h1" false) (by decide) rfl).2 (Or.inl rfl) |>.1 (by decide)

/-- C6 as stated fails on one input: a forced re-initiation with the
same hash over an invalid-ELF `Uploaded` record passes every check (the
inner decision is (true, AlreadyExistsButForced) and the size is within
bound), yet it does not respond with `UploadInstructions`:
`MarkAsUploading` refuses the overwrite, because an `Uploaded` record
with a matching hash exists, and the error surfaces as `Internal`. -/
theorem initiate_forced_equal_hash_internal :
    (exampleStore [(exampleKey, exampleUploadedRecord "h1" (some ⟨true⟩))]
        emptyDebuginfod).initiate_upload 1000 "u9" (exampleInitiateRequest "h1" 10 true) =
      Except.error (Status.internal "Failed to mark metadata as uploading.") := rfl

/-- C6 (amended): Initiate returns InvalidArgument for an empty hash or
zero size; it re-runs the ShouldInitiate decision and, when the decision
is negative, returns AlreadyExists if the reason is DebuginfoEqual and
FailedPrecondition for any other negative reason; it returns
InvalidArgument when size exceeds max_upload_size; and otherwise it
mints a fresh upload ID and calls MarkAsUploading — when that succeeds
the record is marked Uploading and the response carries
UploadInstructions whose upload_strategy is StreamingRPC (gRPC) and
whose signed_url is empty, and when MarkAsUploading fails the error
surfaces as Internal. -/
theorem initiate_upload_decision (s : DebuginfoStore) (now : Int)
    (new_upload_id : String) (req : InitiateUploadRequest) :
    (req.hash = "" →
      s.initiate_upload now new_upload_id req =
        Except.error (Status.invalid_argument "Hash is empty"))
    ∧ (req.hash ≠ "" → req.size = 0 →
      s.initiate_upload now new_upload_id req =
        Except.error (Status.invalid_argument "Size is zero"))
    ∧ (∀ resp ms, req.hash ≠ "" → req.size ≠ 0 →
        s.should_initiate_upload now
          { build_id := req.build_id, hash := req.hash, force := req.force,
            ty := req.ty, build_id_type := req.build_id_type } = Except.ok (resp, ms) →
        ((resp.should_initiate_upload = false →
          (eqIgnoreAsciiCase resp.reason REASON_DEBUGINFO_EQUAL = true →
            s.initiate_upload now new_upload_id req =
              Except.error (Status.already_exists "Debuginfo already exists"))
          ∧ (eqIgnoreAsciiCase resp.reason REASON_DEBUGINFO_EQUAL = false →
            s.initiate_upload now new_upload_id req =
              Except.error (Status.failed_precondition
                "upload should not have been attempted to be initiated, a previous check should have failed")))
        ∧ (resp.should_initiate_upload = true →
          (s.max_upload_size < req.size →
            s.initiate_upload now new_upload_id req =
              Except.error (Status.invalid_argument
                "Upload size exceeds the maximum allowed size"))
          ∧ (¬ s.max_upload_size < req.size →
            (∀ ms', ms.mark_as_uploading req.build_id new_upload_id req.hash req.ty now =
                Except.ok ms' →
              s.initiate_upload now new_upload_id req =
                Except.ok
                  ({ upload_instructions := some
                      { upload_id := new_upload_id
                        build_id := req.build_id
                        upload_strategy := .grpc
                        signed_url := ""
                        ty := req.ty } }, ms'))
            ∧ (∀ e, ms.mark_as_uploading req.build_id new_upload_id req.hash req.ty now =
                Except.error e →
              s.initiate_upload now new_upload_id req =
                Except.error (Status.internal "Failed to mark metadata as uploading.")))))) := by
  refine ⟨?_, ?_, ?_⟩
  · intro hh
    simp [DebuginfoStore.initiate_upload, hh]
  · intro hh hz
    simp [DebuginfoStore.initiate_upload, hh, hz]
  · intro resp ms hh hz hsi
    refine ⟨?_, ?_⟩
    · intro hneg
      refine ⟨?_, ?_⟩
      · intro heq
        simp [DebuginfoStore.initiate_upload, hh, hz, hsi, hneg, heq]
      · intro hne
        simp [DebuginfoStore.initiate_upload, hh, hz, hsi, hneg, hne]
    · intro hpos
      refine ⟨?_, ?_⟩
      · intro hsz
        simp [DebuginfoStore.initiate_upload, hh, hz, hsi, hpos, hsz]
      · intro hsz
        refine ⟨?_, ?_⟩
        · intro ms' hmark
          simp [DebuginfoStore.initiate_upload, hh, hz, hsi, hpos, hsz, hmark]
        · intro e hmark
          simp [DebuginfoStore.initiate_upload, hh, hz, hsi, hpos, hsz, hmark]

/-- Witness for C6 (amended), the spec scenario S1: first-time upload on
an empty store succeeds and answers `UploadInstructions` with the gRPC
(StreamingRPC) strategy, an empty signed URL, and the minted upload ID,
with the record marked `Uploading`. -/
theorem initiate_upload_decision_witness :
    (exampleStore [] emptyDebuginfod).initiate_upload 5 "u9"
        (exampleInitiateRequest "h1" 1024 false) =
      Except.ok
        ({ upload_instructions := some
            { upload_id := "u9"
              build_id := "abc1"
              upload_strategy := .grpc
              signed_url := ""
              ty := DebuginfoType.executable } },
          [(exampleKey,
            { build_id := "abc1"
              source := .upload
              upload := some
                { id := "u9", hash := "h1", state := .uploading
                  started_at := some 5, finished_at := none }
              quality := none })]) :=
  ((((initiate_upload_decision (exampleStore [] emptyDebuginfod) 5 "u9"
      (exampleInitiateRequest "h1" 1024 false)).2.2
      ⟨true, REASON_FIRST_TIME_SEEN⟩ [] (by decide) (by decide) rfl).2
      rfl).2 (by decide)).1 _ rfl

/-- C7: The Upload stream handler fails with FailedPrecondition whenever
no metadata record exists for the header's (build_id, type) or the
stored upload.id differs from the header's upload_id, and in that case
nothing is written to the object bucket. -/
theorem upload_unknown_id_failed_precondition (s : DebuginfoStore)
    (bid uid : String) (ty_raw : Int) (ty : DebuginfoType) (rest : List UploadFrame)
    (hty : DebuginfoType.tryFromInt ty_raw = some ty)
    (hv : 2 < bid.length)
    (hmiss : s.metadata.fetch bid ty = none ∨
      ∃ info u, s.metadata.fetch bid ty = some info ∧ info.upload = some u ∧ u.id ≠ uid) :
    ∃ e : Status,
      s.upload (⟨some (.info bid uid ty_raw)⟩ :: rest) = ([], Except.error e) ∧
      e.code = StatusCode.failedPrecondition := by
  rcases hmiss with hnone | ⟨info, u, hf, hu, hid⟩
  · refine ⟨Status.failed_precondition
      "metadata not found, this indicates that the upload was not previously initiated",
      ?_, rfl⟩
    simp [DebuginfoStore.upload, hty, validate_buildid_ok hv, hnone]
  · refine ⟨Status.failed_precondition
      "upload metadata not found, this indicates that the upload was not previously initiated",
      ?_, rfl⟩
    simp [DebuginfoStore.upload, hty, validate_buildid_ok hv, hf, hu, hid]

/-- Witness for C7, the spec scenario S8: the stored upload id is `u1`
but the header carries `u3`; the stream is refused with
FailedPrecondition and the bucket receives no write. -/
theorem upload_unknown_id_failed_precondition_witness :
    ∃ e : Status,
      (exampleStore [(exampleKey, exampleUploadingRecord (some 0))] emptyDebuginfod).upload
          [⟨some (.info "abc1" "u3" 1)⟩, ⟨some (.chunkData [1, 2])⟩] =
        ([], Except.error e) ∧
      e.code = StatusCode.failedPrecondition :=
  upload_unknown_id_failed_precondition
    (exampleStore [(exampleKey, exampleUploadingRecord (some 0))] emptyDebuginfod)
    "abc1" "u3" 1 DebuginfoType.executable [⟨some (.chunkData [1, 2])⟩]
    rfl (by decide)
    (Or.inr ⟨exampleUploadingRecord (some 0),
      { id := "u1", hash := "h1", state := .uploading, started_at := some 0
        finished_at := none },
      rfl, rfl, by decide⟩)

/-- C8: On a stream whose first frame is Info and whose subsequent
frames are all ChunkData, Upload concatenates the chunks in arrival
order, writes the buffer to the bucket under key equal to the upload ID,
and returns (build_id, size) with size equal to the total chunk byte
length; any later frame that is not ChunkData makes Upload return
InvalidArgument. -/
theorem upload_stream_semantics (s : DebuginfoStore)
    (bid uid : String) (ty_raw : Int) (ty : DebuginfoType) (rest : List UploadFrame)
    (info : Debuginfo) (u : DebuginfoUpload)
    (hty : DebuginfoType.tryFromInt ty_raw = some ty)
    (hv : 2 < bid.length)
    (hf : s.metadata.fetch bid ty = some info)
    (hu : info.upload = some u)
    (hid : u.id = uid) :
    ((∀ f ∈ rest, ∃ c, f.data = some (.chunkData c)) →
      s.upload (⟨some (.info bid uid ty_raw)⟩ :: rest) =
        ([(uid, chunkBytes rest)],
          Except.ok { build_id := bid, size := (chunkBytes rest).length }))
    ∧ (∀ pre bad post, rest = pre ++ bad :: post →
        (∀ f ∈ pre, ∃ c, f.data = some (.chunkData c)) →
        (∀ c, bad.data ≠ some (.chunkData c)) →
        (s.upload (⟨some (.info bid uid ty_raw)⟩ :: rest)).2 =
          Except.error (Status.invalid_argument "provided no value or invalid data")) := by
  constructor
  · intro hall
    simp [DebuginfoStore.upload, hty, validate_buildid_ok hv, hf, hu, hid,
      collectChunks_all rest hall]
  · intro pre bad post hrest hpre hbad
    subst hrest
    simp [DebuginfoStore.upload, hty, validate_buildid_ok hv, hf, hu, hid,
      collectChunks_bad pre bad post hpre hbad]

/-- Witness for C8: two chunk frames after the header are concatenated,
written under the upload id, and the response reports their total
byte length. -/
theorem upload_stream_semantics_witness :
    (exampleStore [(exampleKey, exampleUploadingRecord (some 0))] emptyDebuginfod).upload
        [⟨some (.info "abc1" "u1" 1)⟩, ⟨some (.chunkData [1, 2])⟩,
          ⟨some (.chunkData [3])⟩] =
      ([("u1", [1, 2, 3])], Except.ok { build_id := "abc1", size := 3 }) :=
  (upload_stream_semantics
    (exampleStore [(exampleKey, exampleUploadingRecord (some 0))] emptyDebuginfod)
    "abc1" "u1" 1 DebuginfoType.executable
    [⟨some (.chunkData [1, 2])⟩, ⟨some (.chunkData [3])⟩]
    (exampleUploadingRecord (some 0))
    { id := "u1", hash := "h1", state := .uploading, started_at := some 0
      finished_at := none }
    rfl (by decide) rfl rfl rfl).1 (by simp)

/-- C9 as stated fails: `mark_upload_finished` on an empty store (so no
record whose `upload.id` equals the given upload id exists) returns the
code Internal, not FailedPrecondition. -/
theorem mark_finished_unknown_upload_not_failed_precondition :
    (exampleStore [] emptyDebuginfod).mark_upload_finished 1000
        { build_id := "abc1", upload_id := "u1", ty := .executable } =
      Except.error (Status.internal "Failed to mark metadata as uploaded.")
    ∧ StatusCode.internalError ≠ StatusCode.failedPrecondition :=
  ⟨rfl, by decide⟩

/-- C9 (amended): MarkUploadFinished called with a (build_id, upload_id,
kind) for which no record exists whose upload.id equals the given
upload_id fails — with code Internal: the handler maps every error of
the metadata store's MarkAsUploaded transition to an Internal status. -/
theorem mark_finished_unknown_upload_internal (s : DebuginfoStore) (now : Int)
    (req : MarkUploadFinishedRequest)
    (hv : 2 < req.build_id.length)
    (hmiss : s.metadata.fetch req.build_id req.ty = none ∨
      (∃ info, s.metadata.fetch req.build_id req.ty = some info ∧ info.upload = none) ∨
      ∃ info u, s.metadata.fetch req.build_id req.ty = some info ∧
        info.upload = some u ∧ u.id ≠ req.upload_id) :
    s.mark_upload_finished now req =
      Except.error (Status.internal "Failed to mark metadata as uploaded.") := by
  rcases hmiss with hnone | ⟨info, hf, hu⟩ | ⟨info, u, hf, hu, hid⟩
  · simp [DebuginfoStore.mark_upload_finished, validate_buildid_ok hv,
      MetadataStore.mark_as_uploaded, hnone]
  · simp [DebuginfoStore.mark_upload_finished, validate_buildid_ok hv,
      MetadataStore.mark_as_uploaded, hf, hu]
  · simp [DebuginfoStore.mark_upload_finished, validate_buildid_ok hv,
      MetadataStore.mark_as_uploaded, hf, hu, hid]

/-- Witness for C9 (amended): an `Uploading` record with upload id `u1`
and a MarkUploadFinished request naming `u3`. -/
theorem mark_finished_unknown_upload_internal_witness :
    (exampleStore [(exampleKey, exampleUploadingRecord (some 0))]
        emptyDebuginfod).mark_upload_finished 1000
        { build_id := "abc1", upload_id := "u3", ty := .executable } =
      Except.error (Status.internal "Failed to mark metadata as uploaded.") :=
  mark_finished_unknown_upload_internal
    (exampleStore [(exampleKey, exampleUploadingRecord (some 0))] emptyDebuginfod)
    1000 { build_id := "abc1", upload_id := "u3", ty := .executable }
    (by decide)
    (Or.inr (Or.inr ⟨exampleUploadingRecord (some 0),
      { id := "u1", hash := "h1", state := .uploading, started_at := some 0
        finished_at := none },
      rfl, rfl, by decide⟩))

end ParcaScraper
